import Mathlib

/-!
Verification development for the CityCar funnel utility
(`funnel_utility.py`).

The pandas data model is shallowly embedded: a cell value is a typed
scalar (`Val`) or null (`Option Val` with `none` playing the role of
NaN/NaT), a row is an association list from column names to cells, and a
`DataFrame` is a column list together with a list of rows.  Timestamps
are integers (epoch seconds, as produced by the loader contract that
pre-parses all time columns); durations computed from them are exact
rationals (`total_seconds() / 60`).

`pd.merge(..., how=left)` is embedded with its actual semantics:
every left row survives; unmatched right fields become null; a null key
on the left matches a null key on the right (pandas matches NaN keys to
each other in merges); shared non-key column names receive the
`_x` / `_y` suffixes.
-/

/-- A typed scalar cell value.  `none : Option Val` models NaN/NaT/None. -/
inductive Val where
  | str : String → Val
  | int : Int → Val
deriving DecidableEq, Repr

/-- A row: association list from column name to (possibly null) cell. -/
abbrev Row := List (String × Option Val)

/-- A pandas DataFrame: column names plus rows (each row aligned with `cols`). -/
structure DataFrame where
  cols : List String
  rows : List Row
deriving DecidableEq, Repr

/-- `df[c]` on one row; missing key behaves as null. -/
def getCell (r : Row) (c : String) : Option Val :=
  (List.lookup c r).getD none

/-- One column of a DataFrame, as the list of its (possibly null) cells. -/
def colList (df : DataFrame) (c : String) : List (Option Val) :=
  df.rows.map (fun r => getCell r c)

/-- `Series.nunique()`: number of distinct non-null values of a column. -/
def nuniqueRows (rows : List Row) (c : String) : Nat :=
  ((rows.map (fun r => getCell r c)).filterMap id).dedup.length

/-- `df[c].nunique()`. -/
def nunique (df : DataFrame) (c : String) : Nat :=
  nuniqueRows df.rows c

/-- `df[df[c].notna()]`. -/
def filterNotNull (df : DataFrame) (c : String) : DataFrame :=
  { df with rows := df.rows.filter (fun r => (getCell r c).isSome) }

/-- `df[df[c] == v]` (NaN compares unequal, so null rows are excluded). -/
def filterEq (df : DataFrame) (c : String) (v : Val) : DataFrame :=
  { df with rows := df.rows.filter (fun r => decide (getCell r c = some v)) }

/-- A missing join key, raised by `pd.merge` as a `KeyError` naming the column. -/
structure SchemaError where
  missing : String
deriving DecidableEq, Repr

/-- Rename of a left-side column under the pandas suffix convention. -/
def sufX (S : List String) (c : String) : String :=
  if c ∈ S then c ++ "_x" else c

/-- Rename of a right-side column under the pandas suffix convention. -/
def sufY (S : List String) (c : String) : String :=
  if c ∈ S then c ++ "_y" else c

/-- Apply a column renaming to the keys of a row. -/
def renameRow (σ : String → String) (r : Row) : Row :=
  r.map (fun p => (σ p.1, p.2))

/-- Colliding column names for a two-key merge: names present on both sides. -/
def collide2 (L R : DataFrame) : List String :=
  L.cols.filter (fun c => decide (c ∈ R.cols))

/-- Colliding column names for an `on=k` merge: shared names other than the key. -/
def collideOn (L R : DataFrame) (k : String) : List String :=
  (L.cols.filter (fun c => decide (c ∈ R.cols))).filter (fun c => decide (c ≠ k))

/-- The null-filled right part of an unmatched left row. -/
def nullsFor (cols : List String) (σ : String → String) : Row :=
  cols.map (fun c => (σ c, (none : Option Val)))

/-- Right rows whose key cell equals the given key (null matches null,
as pandas merge does for NaN keys). -/
def matchRows (rrows : List Row) (b : String) (key : Option Val) : List Row :=
  rrows.filter (fun m => decide (getCell m b = key))

/-- `pd.merge(L, R, how=left, left_on=a, right_on=b)`:
both key columns are kept; shared names get `_x` / `_y` suffixes;
every left row survives, null-filled when unmatched. -/
def leftMergeOn2 (L R : DataFrame) (a b : String) : Except SchemaError DataFrame :=
  if a ∈ L.cols then
    if b ∈ R.cols then
      let S := collide2 L R
      .ok { cols := L.cols.map (sufX S) ++ R.cols.map (sufY S),
            rows := L.rows.flatMap (fun l =>
              let ms := matchRows R.rows b (getCell l a)
              if ms.isEmpty then [renameRow (sufX S) l ++ nullsFor R.cols (sufY S)]
              else ms.map (fun m => renameRow (sufX S) l ++ renameRow (sufY S) m)) }
    else .error ⟨b⟩
  else .error ⟨a⟩

/-- Remove the key column from a matched right row (an `on=k` merge keeps a
single key column, taken from the left side). -/
def dropKey (k : String) (r : Row) : Row :=
  r.filter (fun p => decide (p.1 ≠ k))

/-- `pd.merge(L, R, how=left, on=k)`. -/
def leftMergeOn (L R : DataFrame) (k : String) : Except SchemaError DataFrame :=
  if k ∈ L.cols then
    if k ∈ R.cols then
      let S := collideOn L R k
      let rcols := R.cols.filter (fun c => decide (c ≠ k))
      .ok { cols := L.cols.map (sufX S) ++ rcols.map (sufY S),
            rows := L.rows.flatMap (fun l =>
              let ms := matchRows R.rows k (getCell l k)
              if ms.isEmpty then [renameRow (sufX S) l ++ nullsFor rcols (sufY S)]
              else ms.map (fun m => renameRow (sufX S) l ++ renameRow (sufY S) (dropKey k m))) }
    else .error ⟨k⟩
  else .error ⟨k⟩

/-- The five input relations held by `CityCarDataHandler`. -/
structure TableSet where
  downloads : DataFrame
  signups : DataFrame
  requests : DataFrame
  transactions : DataFrame
  reviews : DataFrame
deriving DecidableEq, Repr

/-- Join 1 of `merge_all_data`: downloads with signups on
`app_download_key = session_id`. -/
def mergeStep1 (ts : TableSet) : Except SchemaError DataFrame :=
  leftMergeOn2 ts.downloads ts.signups "app_download_key" "session_id"

/-- Join 2 of `merge_all_data`: add requests on `user_id`. -/
def mergeStep2 (ts : TableSet) (f1 : DataFrame) : Except SchemaError DataFrame :=
  leftMergeOn f1 ts.requests "user_id"

/-- Join 3 of `merge_all_data`: add transactions on `ride_id`. -/
def mergeStep3 (ts : TableSet) (f2 : DataFrame) : Except SchemaError DataFrame :=
  leftMergeOn f2 ts.transactions "ride_id"

/-- Join 4 of `merge_all_data`: add reviews on `ride_id`. -/
def mergeStep4 (ts : TableSet) (f3 : DataFrame) : Except SchemaError DataFrame :=
  leftMergeOn f3 ts.reviews "ride_id"

/-- The final rename pass of `merge_all_data`: `driver_id_x` back to
`driver_id` and `user_id_x` back to `user_id` (the source guards each rename
with a membership test, which is extensionally the same as renaming
unconditionally since renaming an absent label is a no-op).  Nothing is
dropped. -/
def renameFix (c : String) : String :=
  if c = "driver_id_x" then "driver_id"
  else if c = "user_id_x" then "user_id" else c

/-- Apply the final rename pass to a whole DataFrame. -/
def cleanupCols (df : DataFrame) : DataFrame :=
  { cols := df.cols.map renameFix, rows := df.rows.map (renameRow renameFix) }

/-- `merge_all_data`: the four left joins in fixed order, then the rename
pass.  A missing join key propagates as a `SchemaError`. -/
def merge_all_data (ts : TableSet) : Except SchemaError DataFrame := do
  let f1 ← mergeStep1 ts
  let f2 ← mergeStep2 ts f1
  let f3 ← mergeStep3 ts f2
  let f4 ← mergeStep4 ts f3
  return cleanupCols f4

/-- `calculate_funnel_steps`: the seven funnel stages over the merged
FunnelTable, in source order with the source's stage labels. -/
def calculate_funnel_steps (f : DataFrame) : List (String × Nat) :=
  [("Downloads", nunique f "app_download_key"),
   ("Signups", nunique f "user_id"),
   ("Requests", nunique (filterNotNull f "request_ts") "user_id"),
   ("Accepted", nunique (filterNotNull f "accept_ts") "user_id"),
   ("Completed", nunique (filterNotNull f "dropoff_ts") "user_id"),
   ("Payment", nunique (filterEq f "charge_status" (Val.str "Approved")) "user_id"),
   ("Reviews", nunique (filterNotNull f "review_id") "user_id")]

/-- Read a cell as a timestamp (epoch seconds); a non-integer or null cell
behaves as NaT. -/
def tsVal : Option Val → Option Int
  | some (Val.int t) => some t
  | _ => none

/-- Minutes between two timestamps, `(b - a).total_seconds() / 60`, exact. -/
def minutesBetween (a b : Int) : ℚ :=
  ((b - a : Int) : ℚ) / 60

/-- Timestamp difference of two columns of one row in minutes; null (NaN)
when either timestamp is missing. -/
def rowMinutes (r : Row) (start stop : String) : Option ℚ :=
  match tsVal (getCell r start), tsVal (getCell r stop) with
  | some a, some b => some (minutesBetween a b)
  | _, _ => none

/-- The `durations` series of `analyze_ride_duration_quality`:
`(dropoff_ts - pickup_ts)` in minutes for every request row, NaN when
either timestamp is missing. -/
def durationsOf (req : DataFrame) : List (Option ℚ) :=
  req.rows.map (fun r => rowMinutes r "pickup_ts" "dropoff_ts")

/-- Mean of a series after dropping NaN, as pandas `Series.mean()`;
`none` models the NaN returned on an all-NaN/empty series. -/
def meanQ (l : List ℚ) : Option ℚ :=
  if l.length = 0 then none else some (l.sum / (l.length : ℚ))

/-- Linear-interpolation percentile of an already sorted nonempty series
(pandas `describe` quartile rule). -/
def percentileSorted (sorted : List ℚ) (p : ℚ) : Option ℚ :=
  if sorted.length = 0 then none
  else
    let h : ℚ := ((sorted.length - 1 : Nat) : ℚ) * p
    let i : Nat := h.floor.toNat
    let lo := sorted.getD i 0
    let hi := sorted.getD (i + 1) lo
    some (lo + (h - (i : ℚ)) * (hi - lo))

/-- The fields reported by `Series.describe()` on a numeric series.
`varSample` is the sample variance (ddof = 1); pandas prints its square
root as `std`, which is kept in squared form here to stay in ℚ. -/
structure DescriptiveStats where
  count : Nat
  mean : Option ℚ
  varSample : Option ℚ
  minV : Option ℚ
  q25 : Option ℚ
  q50 : Option ℚ
  q75 : Option ℚ
  maxV : Option ℚ
deriving DecidableEq, Repr

/-- `Series.describe()` over the non-NaN entries of a series. -/
def describe (l : List ℚ) : DescriptiveStats :=
  let sorted := List.insertionSort (fun a b : ℚ => a ≤ b) l
  let n := l.length
  { count := n,
    mean := meanQ l,
    varSample :=
      if n < 2 then none
      else
        match meanQ l with
        | none => none
        | some μ => some ((l.map (fun x => (x - μ) * (x - μ))).sum / ((n - 1 : Nat) : ℚ)),
    minV := sorted.head?,
    q25 := percentileSorted sorted (1/4),
    q50 := percentileSorted sorted (1/2),
    q75 := percentileSorted sorted (3/4),
    maxV := sorted.getLast? }

/-- `analyze_ride_duration_quality`: describe the duration series, then
count rides longer than 300 minutes and rides with negative duration
(NaN compares false, so NaN durations fall out of both counts, exactly as
in `durations[durations > 300].count()`). -/
def analyze_ride_duration_quality (req : DataFrame) :
    DescriptiveStats × Nat × Nat :=
  let durations := durationsOf req
  let ds := durations.filterMap id
  (describe ds,
   (ds.filter (fun d => decide (300 < d))).length,
   (ds.filter (fun d => decide (d < 0))).length)

/-- `analyze_dropoff_gap`: problem rides (accepted, never dropped off),
how many of them carry a cancellation stamp, and the printed percentage,
which is only computed when the problem count is positive (otherwise the
source prints a no-cases message; modelled as `none`). -/
def analyze_dropoff_gap (req : DataFrame) : Nat × Nat × Option ℚ :=
  let problem := req.rows.filter
    (fun r => (getCell r "accept_ts").isSome && (getCell r "dropoff_ts").isNone)
  let countProblems := problem.length
  let cancelledCount :=
    (problem.filter (fun r => (getCell r "cancel_ts").isSome)).length
  (countProblems, cancelledCount,
   if 0 < countProblems
   then some ((cancelledCount : ℚ) / (countProblems : ℚ) * 100)
   else none)

/-- The `ZeroDivisionError` raised by Python on integer division by zero. -/
structure PyZeroDivisionError where
deriving DecidableEq, Repr

/-- `analyze_cancellation_reasons`: average wait (accept to pickup) of
completed rides, average patience (accept to cancel) of rides cancelled
after acceptance, both NaN-skipping means.  The long-waiter share is
printed as `len(long_waiters) / len(cancelled_rides) * 100`; that integer
division raises `ZeroDivisionError` when there are no cancelled-after-
accept rides, which aborts the call before it returns. -/
def analyze_cancellation_reasons (req : DataFrame) :
    Except PyZeroDivisionError (Option ℚ × Option ℚ) :=
  let completed := req.rows.filter (fun r => (getCell r "dropoff_ts").isSome)
  let avgWaitCompleted :=
    meanQ ((completed.map (fun r => rowMinutes r "accept_ts" "pickup_ts")).filterMap id)
  let cancelled := req.rows.filter
    (fun r => (getCell r "accept_ts").isSome && (getCell r "dropoff_ts").isNone
              && (getCell r "cancel_ts").isSome)
  let patience := cancelled.map (fun r => rowMinutes r "accept_ts" "cancel_ts")
  let avgWaitCancelled := meanQ (patience.filterMap id)
  if cancelled.length = 0 then .error ⟨⟩
  else .ok (avgWaitCompleted, avgWaitCancelled)

/-- Character order via code points. -/
def charLe (a b : Char) : Bool := a.toNat ≤ b.toNat

/-- Lexicographic order on character lists. -/
def lexLe : List Char → List Char → Bool
  | [], _ => true
  | _ :: _, [] => false
  | a :: as, b :: bs => if a = b then lexLe as bs else charLe a b

/-- Lexicographic order on strings (kernel-reducible, unlike the builtin
iterator-based order). -/
def strLe (a b : String) : Bool := lexLe a.data b.data

/-- Order on cell values, used for the sorted outputs (`groupby` sorts its
keys; `sort_values` sorts labels).  The relevant columns are homogeneous,
so the cross-constructor case is arbitrary but fixed. -/
def valLE (a b : Val) : Bool :=
  match a, b with
  | Val.int x, Val.int y => decide (x ≤ y)
  | Val.str x, Val.str y => strLe x y
  | Val.int _, Val.str _ => true
  | Val.str _, Val.int _ => false

/-- One output row of `get_platform_metrics`. -/
structure PlatformRow where
  platform : Val
  downloadsCount : Nat
  completedRides : Nat
  conversionRate : Option ℚ
deriving DecidableEq, Repr

/-- `get_platform_metrics`: group the FunnelTable by platform (groupby
drops null keys and sorts the group labels), count distinct download keys
and completed ride rows, then the conversion percentage.  Pandas divides
elementwise without raising; a zero-download group yields a non-finite
float, modelled as `none`. -/
def get_platform_metrics (f : DataFrame) : List PlatformRow :=
  let groups :=
    List.insertionSort (fun a b => valLE a b = true)
      ((f.rows.filterMap (fun r => getCell r "platform")).dedup)
  groups.map (fun g =>
    let gd := f.rows.filter (fun r => decide (getCell r "platform" = some g))
    let dls := nuniqueRows gd "app_download_key"
    let completed := (gd.filter (fun r => (getCell r "dropoff_ts").isSome)).length
    { platform := g,
      downloadsCount := dls,
      completedRides := completed,
      conversionRate :=
        if dls = 0 then none else some ((completed : ℚ) / (dls : ℚ) * 100) })

/-- One output row of `get_funnel_by_age`. -/
structure AgeRow where
  ageGroup : Val
  signups : Nat
  requests : Nat
  completed : Nat
  reviews : Nat
deriving DecidableEq, Repr

/-- The `df_age` frame of `get_funnel_by_age`: rows with a non-null
`age_range`. -/
def ageRowsOf (f : DataFrame) : List Row :=
  f.rows.filter (fun r => (getCell r "age_range").isSome)

/-- The distinct age groups iterated over by `get_funnel_by_age`. -/
def ageGroupsOf (f : DataFrame) : List Val :=
  ((ageRowsOf f).filterMap (fun r => getCell r "age_range")).dedup

/-- The result row `get_funnel_by_age` builds for one age group. -/
def ageRowFor (f : DataFrame) (g : Val) : AgeRow :=
  let gd := (ageRowsOf f).filter (fun r => decide (getCell r "age_range" = some g))
  { ageGroup := g,
    signups := nuniqueRows gd "user_id",
    requests := nuniqueRows (gd.filter (fun r => (getCell r "request_ts").isSome)) "user_id",
    completed := nuniqueRows (gd.filter (fun r => (getCell r "dropoff_ts").isSome)) "user_id",
    reviews := nuniqueRows (gd.filter (fun r => (getCell r "review_id").isSome)) "user_id" }

/-- `get_funnel_by_age`: drop rows without `age_range`, take the distinct
age groups, compute the four distinct-user counts per group, and sort the
result rows by age-group label. -/
def get_funnel_by_age (f : DataFrame) : List AgeRow :=
  List.insertionSort (fun x y => valLE x.ageGroup y.ageGroup = true)
    ((ageGroupsOf f).map (ageRowFor f))

/-- Hour of day of an epoch-seconds timestamp, `0..23`. -/
def hourOfTs (t : Int) : Nat :=
  ((t.ediv 3600).emod 24).toNat

/-- Hour of a request row's `request_ts`; `none` for NaT (dropped by
`value_counts`). -/
def hourOf (v : Option Val) : Option Nat :=
  match v with
  | some (Val.int t) => some (hourOfTs t)
  | _ => none

/-- The hour series of `analyze_surge_demand`: hour-of-day of every
non-null `request_ts` (NaT rows are dropped by `value_counts`). -/
def requestHours (req : DataFrame) : List Nat :=
  req.rows.filterMap (fun r => hourOf (getCell r "request_ts"))

/-- The `value_counts().sort_index()` histogram over the request hours. -/
def analyze_surge_demand (req : DataFrame) : List (Nat × Nat) :=
  List.insertionSort (fun p q : Nat × Nat => p.1 ≤ q.1)
    ((requestHours req).dedup.map (fun h => (h, (requestHours req).count h)))

/-- Shorthand: a non-null string cell. -/
def vs (s : String) : Option Val := some (Val.str s)

/-- Shorthand: a non-null timestamp/integer cell. -/
def vi (n : Int) : Option Val := some (Val.int n)

/-- Download schema of the data model (key and fields of spec section 3). -/
def dlCols : List String := ["app_download_key", "platform"]

/-- Signup schema. -/
def suCols : List String := ["session_id", "user_id", "age_range"]

/-- Request schema. -/
def rqCols : List String :=
  ["ride_id", "user_id", "driver_id", "request_ts", "accept_ts",
   "pickup_ts", "dropoff_ts", "cancel_ts"]

/-- Transaction schema. -/
def txCols : List String := ["ride_id", "purchase_amount_usd", "charge_status"]

/-- Review schema. -/
def rvCols : List String := ["ride_id", "user_id", "driver_id", "review_id"]

/-- Example scenario downloads: three downloads D1, D2, D3. -/
def dlC6 : DataFrame :=
  ⟨dlCols,
   [[("app_download_key", vs "D1"), ("platform", vs "ios")],
    [("app_download_key", vs "D2"), ("platform", vs "ios")],
    [("app_download_key", vs "D3"), ("platform", vs "android")]]⟩

/-- Example scenario signups: D1 signs up as U1. -/
def suC6 : DataFrame :=
  ⟨suCols, [[("session_id", vs "D1"), ("user_id", vs "U1"), ("age_range", vs "18-24")]]⟩

/-- Example scenario requests: one ride for U1, accepted then cancelled,
never dropped off. -/
def rqC6 : DataFrame :=
  ⟨rqCols,
   [[("ride_id", vs "R1"), ("user_id", vs "U1"), ("driver_id", vs "DR9"),
     ("request_ts", vi 1000), ("accept_ts", vi 1120), ("pickup_ts", none),
     ("dropoff_ts", none), ("cancel_ts", vi 1600)]]⟩

/-- Example scenario transactions: none. -/
def txC6 : DataFrame := ⟨txCols, []⟩

/-- Example scenario reviews: none (the review schema still carries
`user_id` and `driver_id`, so the final join still collides). -/
def rvC6 : DataFrame := ⟨rvCols, []⟩

/-- The example scenario TableSet of spec section 8. -/
def tsC6 : TableSet := ⟨dlC6, suC6, rqC6, txC6, rvC6⟩

/-- Columns of a successful merge result (empty on error). -/
def okCols (e : Except SchemaError DataFrame) : List String :=
  match e with
  | .ok f => f.cols
  | .error _ => []

/-- Failing input for the zero-denominator claim: a single completed ride,
so there are no cancelled-after-accept rides at all. -/
def rqC5 : DataFrame :=
  ⟨rqCols,
   [[("ride_id", vs "R1"), ("user_id", vs "U1"), ("driver_id", vs "DR9"),
     ("request_ts", vi 0), ("accept_ts", vi 120), ("pickup_ts", vi 300),
     ("dropoff_ts", vi 900), ("cancel_ts", none)]]⟩

/-- Counterexample input for the duration claim: one ride with a dropoff
timestamp but no pickup timestamp. -/
def rqC7 : DataFrame :=
  ⟨rqCols,
   [[("ride_id", vs "R1"), ("user_id", vs "U1"), ("driver_id", vs "DR9"),
     ("request_ts", vi 0), ("accept_ts", vi 120), ("pickup_ts", none),
     ("dropoff_ts", vi 900), ("cancel_ts", none)]]⟩

/-- Specification-side count: distinct non-null values of a column, as a
finite-set cardinality. -/
def distinctKeys (f : DataFrame) (c : String) : Nat :=
  (f.rows.filterMap (fun r => getCell r c)).toFinset.card

/-- Specification-side count: distinct non-null `user_id` over the rows
satisfying a stage predicate, as a finite-set cardinality. -/
def distinctUsersWhere (f : DataFrame) (p : Row → Bool) : Nat :=
  (f.rows.filterMap (fun r => if p r then getCell r "user_id" else none)).toFinset.card

/-- Specification-side duration series: `(dropoff_ts - pickup_ts)` in
fractional minutes for exactly the rides where both timestamps are
present. -/
def completedDurations (req : DataFrame) : List ℚ :=
  (req.rows.filter (fun r =>
      (tsVal (getCell r "pickup_ts")).isSome && (tsVal (getCell r "dropoff_ts")).isSome)).map
    (fun r => minutesBetween ((tsVal (getCell r "pickup_ts")).getD 0)
      ((tsVal (getCell r "dropoff_ts")).getD 0))

/-- Specification-side hourly demand: the number of requests whose
`request_ts` falls in a given hour of day. -/
def requestsAtHour (req : DataFrame) (h : Nat) : Nat :=
  (req.rows.filter (fun r => decide (hourOf (getCell r "request_ts") = some h))).length

/-- The mutable state of a `CityCarDataHandler`: the five loaded relations
and the lazily built funnel cache. -/
structure HandlerState where
  df_downloads : DataFrame
  df_signups : DataFrame
  df_requests : DataFrame
  df_transactions : DataFrame
  df_reviews : DataFrame
  df_funnel : Option DataFrame
deriving DecidableEq, Repr

/-- The TableSet held by a handler state. -/
def tablesOf (st : HandlerState) : TableSet :=
  ⟨st.df_downloads, st.df_signups, st.df_requests, st.df_transactions, st.df_reviews⟩

/-- `merge_all_data` as a state transition: `self.df_funnel` is assigned
after each successful join, so an error at join `k` leaves the cache
holding the last successful intermediate result, and the error propagates
to the caller. -/
def merge_all_data_state (st : HandlerState) :
    Except SchemaError DataFrame × HandlerState :=
  match mergeStep1 (tablesOf st) with
  | .error e => (.error e, st)
  | .ok f1 =>
    match mergeStep2 (tablesOf st) f1 with
    | .error e => (.error e, { st with df_funnel := some f1 })
    | .ok f2 =>
      match mergeStep3 (tablesOf st) f2 with
      | .error e => (.error e, { st with df_funnel := some f2 })
      | .ok f3 =>
        match mergeStep4 (tablesOf st) f3 with
        | .error e => (.error e, { st with df_funnel := some f3 })
        | .ok f4 => (.ok (cleanupCols f4), { st with df_funnel := some (cleanupCols f4) })

/-- The `if self.df_funnel is None: self.merge_all_data()` prologue shared
by every FunnelTable consumer. -/
def ensure_funnel (st : HandlerState) : Except SchemaError DataFrame × HandlerState :=
  match st.df_funnel with
  | some f => (.ok f, st)
  | none => merge_all_data_state st

/-- `calculate_funnel_steps` as a state transition. -/
def calculate_funnel_steps_state (st : HandlerState) :
    Except SchemaError (List (String × Nat)) × HandlerState :=
  match ensure_funnel st with
  | (.error e, stB) => (.error e, stB)
  | (.ok f, stB) => (.ok (calculate_funnel_steps f), stB)

/-- `get_platform_metrics` as a state transition. -/
def get_platform_metrics_state (st : HandlerState) :
    Except SchemaError (List PlatformRow) × HandlerState :=
  match ensure_funnel st with
  | (.error e, stB) => (.error e, stB)
  | (.ok f, stB) => (.ok (get_platform_metrics f), stB)

/-- `get_funnel_by_age` as a state transition. -/
def get_funnel_by_age_state (st : HandlerState) :
    Except SchemaError (List AgeRow) × HandlerState :=
  match ensure_funnel st with
  | (.error e, stB) => (.error e, stB)
  | (.ok f, stB) => (.ok (get_funnel_by_age f), stB)

/-- `analyze_ride_duration_quality` as a state transition (pure read of
the requests relation). -/
def analyze_ride_duration_quality_state (st : HandlerState) :
    (DescriptiveStats × Nat × Nat) × HandlerState :=
  (analyze_ride_duration_quality st.df_requests, st)

/-- `analyze_dropoff_gap` as a state transition (pure read). -/
def analyze_dropoff_gap_state (st : HandlerState) :
    (Nat × Nat × Option ℚ) × HandlerState :=
  (analyze_dropoff_gap st.df_requests, st)

/-- `analyze_cancellation_reasons` as a state transition: the two filtered
frames are explicit copies in the source, so the requests relation is
only read. -/
def analyze_cancellation_reasons_state (st : HandlerState) :
    Except PyZeroDivisionError (Option ℚ × Option ℚ) × HandlerState :=
  (analyze_cancellation_reasons st.df_requests, st)

/-- `pd.to_datetime` on a column the loader has already parsed to
timestamps: the identity on typed cells. -/
def toDatetimeCell (v : Option Val) : Option Val := v

/-- Column assignment `df[c] = series` (replaces the column when present,
appends it otherwise). -/
def setColumn (df : DataFrame) (c : String) (f : Option Val → Option Val) : DataFrame :=
  if c ∈ df.cols then
    { df with rows := df.rows.map (fun r => r.map (fun p => if p.1 = c then (p.1, f p.2) else p)) }
  else
    { cols := df.cols ++ [c], rows := df.rows.map (fun r => r ++ [(c, f none)]) }

/-- `analyze_surge_demand` as a state transition: the source re-assigns
`self.df_requests[request_ts] = pd.to_datetime(...)` (a read that raises a
KeyError when the column is absent, and a value-preserving write
otherwise) and then computes the histogram on a copied column. -/
def analyze_surge_demand_state (st : HandlerState) :
    Except SchemaError (List (Nat × Nat)) × HandlerState :=
  if "request_ts" ∈ st.df_requests.cols then
    (.ok (analyze_surge_demand st.df_requests),
     { st with df_requests := setColumn st.df_requests "request_ts" toDatetimeCell })
  else (.error ⟨"request_ts"⟩, st)

/-- Frame predicate: the five input relations of `stB` are those of `st`. -/
def preservesInputs (st stB : HandlerState) : Prop :=
  stB.df_downloads = st.df_downloads ∧ stB.df_signups = st.df_signups ∧
  stB.df_requests = st.df_requests ∧ stB.df_transactions = st.df_transactions ∧
  stB.df_reviews = st.df_reviews

/-- Witness input for the missing-join-key claim: a TableSet whose
requests relation lacks `user_id`. -/
def tsC4 : TableSet :=
  ⟨⟨dlCols, []⟩, ⟨suCols, []⟩, ⟨["ride_id", "driver_id"], []⟩, ⟨txCols, []⟩, ⟨rvCols, []⟩⟩

/-- Columns of the funnel after join 1 under the canonical schema. -/
def f1colsC : List String :=
  ["app_download_key", "platform", "session_id", "user_id", "age_range"]

/-- Columns after join 2. -/
def f2colsC : List String :=
  ["app_download_key", "platform", "session_id", "user_id", "age_range",
   "ride_id", "driver_id", "request_ts", "accept_ts", "pickup_ts",
   "dropoff_ts", "cancel_ts"]

/-- Columns after join 3. -/
def f3colsC : List String :=
  ["app_download_key", "platform", "session_id", "user_id", "age_range",
   "ride_id", "driver_id", "request_ts", "accept_ts", "pickup_ts",
   "dropoff_ts", "cancel_ts", "purchase_amount_usd", "charge_status"]

/-- Columns after join 4 (the collision with the review relation has
produced the suffixed variants). -/
def f4colsC : List String :=
  ["app_download_key", "platform", "session_id", "user_id_x", "age_range",
   "ride_id", "driver_id_x", "request_ts", "accept_ts", "pickup_ts",
   "dropoff_ts", "cancel_ts", "purchase_amount_usd", "charge_status",
   "user_id_y", "driver_id_y", "review_id"]

/-- Columns of the final FunnelTable after the rename pass. -/
def funnelColsC : List String :=
  ["app_download_key", "platform", "session_id", "user_id", "age_range",
   "ride_id", "driver_id", "request_ts", "accept_ts", "pickup_ts",
   "dropoff_ts", "cancel_ts", "purchase_amount_usd", "charge_status",
   "user_id_y", "driver_id_y", "review_id"]

/-- The null-filled downstream part of a FunnelTable row whose download
matched nothing anywhere down the chain. -/
def nullTailC3 : Row :=
  [("session_id", none), ("user_id", none), ("age_range", none),
   ("ride_id", none), ("driver_id", none), ("request_ts", none),
   ("accept_ts", none), ("pickup_ts", none), ("dropoff_ts", none),
   ("cancel_ts", none), ("purchase_amount_usd", none), ("charge_status", none),
   ("user_id_y", none), ("driver_id_y", none), ("review_id", none)]

/-- Witness FunnelTable for the age-segment claim: one signed-up user in
one age group with one requested ride. -/
def dfC10 : DataFrame :=
  ⟨["age_range", "user_id", "request_ts", "dropoff_ts", "review_id"],
   [[("age_range", vs "18-24"), ("user_id", vs "U1"), ("request_ts", vi 1000),
     ("dropoff_ts", none), ("review_id", none)]]⟩

theorem lookup_cons_row (c k : String) (v : Option Val) (tl : Row) :
    List.lookup c ((k, v) :: tl) = if c = k then some v else List.lookup c tl := by
  rw [List.lookup]
  cases h : c == k
  · rw [beq_eq_false_iff_ne] at h
    simp [h]
  · rw [beq_iff_eq] at h
    simp [h]

theorem lookup_append_left {a : Row} (b : Row) {c : String}
    (h : c ∈ a.map Prod.fst) : List.lookup c (a ++ b) = List.lookup c a := by
  induction a with
  | nil => simp at h
  | cons p tl ih =>
    rw [List.cons_append, lookup_cons_row, lookup_cons_row]
    by_cases hc : c = p.1
    · rw [if_pos hc, if_pos hc]
    · rw [if_neg hc, if_neg hc]
      apply ih
      simp only [List.map_cons, List.mem_cons] at h
      exact h.resolve_left hc

theorem lookup_append_right {a : Row} (b : Row) {c : String}
    (h : c ∉ a.map Prod.fst) : List.lookup c (a ++ b) = List.lookup c b := by
  induction a with
  | nil => rfl
  | cons p tl ih =>
    rw [List.cons_append, lookup_cons_row]
    simp only [List.map_cons, List.mem_cons] at h
    push_neg at h
    rw [if_neg h.1]
    exact ih h.2

theorem getCell_append_left {a : Row} (b : Row) {c : String}
    (h : c ∈ a.map Prod.fst) : getCell (a ++ b) c = getCell a c := by
  rw [getCell, getCell, lookup_append_left b h]

theorem getCell_append_right {a : Row} (b : Row) {c : String}
    (h : c ∉ a.map Prod.fst) : getCell (a ++ b) c = getCell b c := by
  rw [getCell, getCell, lookup_append_right b h]

theorem map_fst_renameRow (σ : String → String) (r : Row) :
    (renameRow σ r).map Prod.fst = (r.map Prod.fst).map σ := by
  simp [renameRow, List.map_map]

theorem map_fst_nullsFor (cols : List String) (σ : String → String) :
    (nullsFor cols σ).map Prod.fst = cols.map σ := by
  simp [nullsFor, List.map_map]

theorem map_fst_dropKey (k : String) (r : Row) :
    (dropKey k r).map Prod.fst = (r.map Prod.fst).filter (fun c => decide (c ≠ k)) := by
  induction r with
  | nil => rfl
  | cons p tl ih =>
    by_cases h : p.1 = k
    · simpa [dropKey, List.filter_cons, h] using ih
    · simpa [dropKey, List.filter_cons, h] using ih

theorem lookup_renameRow_eq {σ : String → String} {c : String} {r : Row}
    (h : ∀ p ∈ r, σ p.1 = σ c → p.1 = c) :
    List.lookup (σ c) (renameRow σ r) = List.lookup c r := by
  induction r with
  | nil => rfl
  | cons p tl ih =>
    rw [renameRow, List.map_cons]
    rw [lookup_cons_row, lookup_cons_row]
    by_cases hc : c = p.1
    · rw [if_pos (by rw [hc]), if_pos hc]
    · have hσ : ¬ (σ c = σ p.1) := by
        intro he
        exact hc ((h p (List.mem_cons_self p tl) he.symm).symm)
      rw [if_neg hσ, if_neg hc]
      exact ih (fun q hq => h q (List.mem_cons_of_mem p hq))

theorem renameRow_eq_self {σ : String → String} {r : Row} {cols : List String}
    (hr : r.map Prod.fst = cols) (h : ∀ c ∈ cols, σ c = c) : renameRow σ r = r := by
  rw [renameRow]
  have hall : ∀ p ∈ r, (σ p.1, p.2) = p := by
    intro p hp
    have : σ p.1 = p.1 := h p.1 (by rw [← hr]; exact List.mem_map_of_mem Prod.fst hp)
    rw [this]
  rw [List.map_congr_left hall]
  simp

theorem renameRow_append (σ : String → String) (a b : Row) :
    renameRow σ (a ++ b) = renameRow σ a ++ renameRow σ b :=
  List.map_append _ a b

theorem renameRow_renameRow (σ τ : String → String) (r : Row) :
    renameRow σ (renameRow τ r) = renameRow (fun c => σ (τ c)) r := by
  simp [renameRow, List.map_map]

theorem getCell_renamed_prefix {l : Row} (t : Row) {cols : List String}
    {σ : String → String} {c d : String}
    (hl : l.map Prod.fst = cols) (hσc : σ c = d) (hmem : c ∈ cols)
    (hinj : ∀ x ∈ cols, σ x = d → x = c) :
    getCell (renameRow σ l ++ t) d = getCell l c := by
  have h1 : d ∈ (renameRow σ l).map Prod.fst := by
    rw [map_fst_renameRow, hl, ← hσc]
    exact List.mem_map_of_mem σ hmem
  rw [getCell_append_left t h1, getCell, getCell, ← hσc]
  rw [lookup_renameRow_eq]
  intro p hp hpc
  exact hinj p.1 (by rw [← hl]; exact List.mem_map_of_mem Prod.fst hp) (by rw [hpc, hσc])

theorem forall_fst_of_aligned {r : Row} {cols : List String}
    (hr : r.map Prod.fst = cols) (P : String → Prop) (h : ∀ c ∈ cols, P c) :
    ∀ p ∈ r, P p.1 := by
  intro p hp
  exact h p.1 (by rw [← hr]; exact List.mem_map_of_mem Prod.fst hp)

theorem length_le_flatMap {α β : Type} (l : List α) (f : α → List β)
    (h : ∀ a ∈ l, 1 ≤ (f a).length) : l.length ≤ (l.flatMap f).length := by
  induction l with
  | nil => simp
  | cons a tl ih =>
    rw [List.flatMap_cons, List.length_append, List.length_cons]
    have h1 := h a (List.mem_cons_self a tl)
    have h2 := ih (fun x hx => h x (List.mem_cons_of_mem a hx))
    omega

theorem leftMergeOn2_ok_inv {L R : DataFrame} {a b : String} {J : DataFrame}
    (hJ : leftMergeOn2 L R a b = .ok J) :
    a ∈ L.cols ∧ b ∈ R.cols ∧
    J.cols = L.cols.map (sufX (collide2 L R)) ++ R.cols.map (sufY (collide2 L R)) ∧
    J.rows = L.rows.flatMap (fun l =>
      let ms := matchRows R.rows b (getCell l a)
      if ms.isEmpty then
        [renameRow (sufX (collide2 L R)) l ++ nullsFor R.cols (sufY (collide2 L R))]
      else ms.map (fun m =>
        renameRow (sufX (collide2 L R)) l ++ renameRow (sufY (collide2 L R)) m)) := by
  rw [leftMergeOn2] at hJ
  by_cases ha : a ∈ L.cols
  · rw [if_pos ha] at hJ
    by_cases hb : b ∈ R.cols
    · rw [if_pos hb] at hJ
      injection hJ with h
      exact ⟨ha, hb, by rw [← h], by rw [← h]⟩
    · rw [if_neg hb] at hJ
      exact absurd hJ (by simp)
  · rw [if_neg ha] at hJ
    exact absurd hJ (by simp)

theorem leftMergeOn_ok_inv {L R : DataFrame} {k : String} {J : DataFrame}
    (hJ : leftMergeOn L R k = .ok J) :
    k ∈ L.cols ∧ k ∈ R.cols ∧
    J.cols = L.cols.map (sufX (collideOn L R k)) ++
      (R.cols.filter (fun c => decide (c ≠ k))).map (sufY (collideOn L R k)) ∧
    J.rows = L.rows.flatMap (fun l =>
      let ms := matchRows R.rows k (getCell l k)
      if ms.isEmpty then
        [renameRow (sufX (collideOn L R k)) l ++
          nullsFor (R.cols.filter (fun c => decide (c ≠ k))) (sufY (collideOn L R k))]
      else ms.map (fun m =>
        renameRow (sufX (collideOn L R k)) l ++ renameRow (sufY (collideOn L R k)) (dropKey k m))) := by
  rw [leftMergeOn] at hJ
  by_cases ha : k ∈ L.cols
  · rw [if_pos ha] at hJ
    by_cases hb : k ∈ R.cols
    · rw [if_pos hb] at hJ
      injection hJ with h
      exact ⟨ha, hb, by rw [← h], by rw [← h]⟩
    · rw [if_neg hb] at hJ
      exact absurd hJ (by simp)
  · rw [if_neg ha] at hJ
    exact absurd hJ (by simp)

theorem length_le_leftMergeOn2 {L R : DataFrame} {a b : String} {J : DataFrame}
    (hJ : leftMergeOn2 L R a b = .ok J) : L.rows.length ≤ J.rows.length := by
  obtain ⟨-, -, -, hrows⟩ := leftMergeOn2_ok_inv hJ
  rw [hrows]
  apply length_le_flatMap
  intro l hl
  dsimp only
  by_cases h : (matchRows R.rows b (getCell l a)).isEmpty = true
  · rw [if_pos h]
    simp
  · rw [if_neg h]
    rw [List.length_map]
    have hne : matchRows R.rows b (getCell l a) ≠ [] := by
      simpa [List.isEmpty_iff] using h
    exact List.length_pos.mpr hne

theorem length_le_leftMergeOn {L R : DataFrame} {k : String} {J : DataFrame}
    (hJ : leftMergeOn L R k = .ok J) : L.rows.length ≤ J.rows.length := by
  obtain ⟨-, -, -, hrows⟩ := leftMergeOn_ok_inv hJ
  rw [hrows]
  apply length_le_flatMap
  intro l hl
  dsimp only
  by_cases h : (matchRows R.rows k (getCell l k)).isEmpty = true
  · rw [if_pos h]
    simp
  · rw [if_neg h]
    rw [List.length_map]
    have hne : matchRows R.rows k (getCell l k) ≠ [] := by
      simpa [List.isEmpty_iff] using h
    exact List.length_pos.mpr hne

theorem mem_rows_of_matchRows {rrows : List Row} {b : String} {key : Option Val}
    {m : Row} (hm : m ∈ matchRows rrows b key) : m ∈ rrows :=
  (List.mem_filter.mp hm).1

theorem leftMergeOn2_row_aligned {L R : DataFrame} {a b : String} {J : DataFrame}
    (hJ : leftMergeOn2 L R a b = .ok J)
    (hL : ∀ l ∈ L.rows, l.map Prod.fst = L.cols)
    (hR : ∀ m ∈ R.rows, m.map Prod.fst = R.cols) :
    ∀ r ∈ J.rows, r.map Prod.fst = J.cols := by
  obtain ⟨-, -, hcols, hrows⟩ := leftMergeOn2_ok_inv hJ
  intro r hr
  rw [hrows] at hr
  obtain ⟨l, hl, hrl⟩ := List.mem_flatMap.mp hr
  rw [hcols]
  dsimp only at hrl
  by_cases hms : (matchRows R.rows b (getCell l a)).isEmpty = true
  · rw [if_pos hms] at hrl
    simp only [List.mem_singleton] at hrl
    subst hrl
    rw [List.map_append, map_fst_renameRow, map_fst_nullsFor, hL l hl]
  · rw [if_neg hms] at hrl
    obtain ⟨m, hm, rfl⟩ := List.mem_map.mp hrl
    rw [List.map_append, map_fst_renameRow, map_fst_renameRow, hL l hl,
      hR m (mem_rows_of_matchRows hm)]

theorem leftMergeOn_row_aligned {L R : DataFrame} {k : String} {J : DataFrame}
    (hJ : leftMergeOn L R k = .ok J)
    (hL : ∀ l ∈ L.rows, l.map Prod.fst = L.cols)
    (hR : ∀ m ∈ R.rows, m.map Prod.fst = R.cols) :
    ∀ r ∈ J.rows, r.map Prod.fst = J.cols := by
  obtain ⟨-, -, hcols, hrows⟩ := leftMergeOn_ok_inv hJ
  intro r hr
  rw [hrows] at hr
  obtain ⟨l, hl, hrl⟩ := List.mem_flatMap.mp hr
  rw [hcols]
  dsimp only at hrl
  by_cases hms : (matchRows R.rows k (getCell l k)).isEmpty = true
  · rw [if_pos hms] at hrl
    simp only [List.mem_singleton] at hrl
    subst hrl
    rw [List.map_append, map_fst_renameRow, map_fst_nullsFor, hL l hl]
  · rw [if_neg hms] at hrl
    obtain ⟨m, hm, rfl⟩ := List.mem_map.mp hrl
    rw [List.map_append, map_fst_renameRow, map_fst_renameRow, map_fst_dropKey,
      hL l hl, hR m (mem_rows_of_matchRows hm)]

theorem leftMergeOn_rows_cases {L R : DataFrame} {k : String} {J : DataFrame}
    (hJ : leftMergeOn L R k = .ok J) {r : Row} (hr : r ∈ J.rows) :
    ∃ l ∈ L.rows, ∃ t, r = renameRow (sufX (collideOn L R k)) l ++ t := by
  obtain ⟨-, -, -, hrows⟩ := leftMergeOn_ok_inv hJ
  rw [hrows] at hr
  obtain ⟨l, hl, hrl⟩ := List.mem_flatMap.mp hr
  dsimp only at hrl
  by_cases hms : (matchRows R.rows k (getCell l k)).isEmpty = true
  · rw [if_pos hms] at hrl
    simp only [List.mem_singleton] at hrl
    exact ⟨l, hl, _, hrl⟩
  · rw [if_neg hms] at hrl
    obtain ⟨m, hm, rfl⟩ := List.mem_map.mp hrl
    exact ⟨l, hl, _, rfl⟩

theorem leftMergeOn2_exists_prefix {L R : DataFrame} {a b : String} {J : DataFrame}
    (hJ : leftMergeOn2 L R a b = .ok J) {l : Row} (hl : l ∈ L.rows) :
    ∃ t, renameRow (sufX (collide2 L R)) l ++ t ∈ J.rows := by
  obtain ⟨-, -, -, hrows⟩ := leftMergeOn2_ok_inv hJ
  by_cases hms : (matchRows R.rows b (getCell l a)).isEmpty = true
  · refine ⟨nullsFor R.cols (sufY (collide2 L R)), ?_⟩
    rw [hrows]
    refine List.mem_flatMap.mpr ⟨l, hl, ?_⟩
    dsimp only
    rw [if_pos hms]
    exact List.mem_singleton.mpr rfl
  · have hne : matchRows R.rows b (getCell l a) ≠ [] := by
      simpa [List.isEmpty_iff] using hms
    obtain ⟨m, hm⟩ := List.exists_mem_of_ne_nil _ hne
    refine ⟨renameRow (sufY (collide2 L R)) m, ?_⟩
    rw [hrows]
    refine List.mem_flatMap.mpr ⟨l, hl, ?_⟩
    dsimp only
    rw [if_neg hms]
    exact List.mem_map_of_mem _ hm

theorem leftMergeOn_exists_prefix {L R : DataFrame} {k : String} {J : DataFrame}
    (hJ : leftMergeOn L R k = .ok J) {l : Row} (hl : l ∈ L.rows) :
    ∃ t, renameRow (sufX (collideOn L R k)) l ++ t ∈ J.rows := by
  obtain ⟨-, -, -, hrows⟩ := leftMergeOn_ok_inv hJ
  by_cases hms : (matchRows R.rows k (getCell l k)).isEmpty = true
  · refine ⟨nullsFor (R.cols.filter (fun c => decide (c ≠ k))) (sufY (collideOn L R k)), ?_⟩
    rw [hrows]
    refine List.mem_flatMap.mpr ⟨l, hl, ?_⟩
    dsimp only
    rw [if_pos hms]
    exact List.mem_singleton.mpr rfl
  · have hne : matchRows R.rows k (getCell l k) ≠ [] := by
      simpa [List.isEmpty_iff] using hms
    obtain ⟨m, hm⟩ := List.exists_mem_of_ne_nil _ hne
    refine ⟨renameRow (sufY (collideOn L R k)) (dropKey k m), ?_⟩
    rw [hrows]
    refine List.mem_flatMap.mpr ⟨l, hl, ?_⟩
    dsimp only
    rw [if_neg hms]
    exact List.mem_map_of_mem _ hm

theorem matchRows_eq_nil {rrows : List Row} {b : String} {key : Option Val}
    (h : ∀ m ∈ rrows, ¬ (getCell m b = key)) : matchRows rrows b key = [] := by
  rw [matchRows, List.filter_eq_nil_iff]
  intro m hm
  simpa using h m hm

theorem leftMergeOn2_mem_of_no_match {L R : DataFrame} {a b : String} {J : DataFrame}
    (hJ : leftMergeOn2 L R a b = .ok J) {l : Row} (hl : l ∈ L.rows)
    (hnm : ∀ m ∈ R.rows, ¬ (getCell m b = getCell l a)) :
    renameRow (sufX (collide2 L R)) l ++ nullsFor R.cols (sufY (collide2 L R)) ∈ J.rows := by
  obtain ⟨-, -, -, hrows⟩ := leftMergeOn2_ok_inv hJ
  rw [hrows]
  refine List.mem_flatMap.mpr ⟨l, hl, ?_⟩
  dsimp only
  rw [matchRows_eq_nil hnm]
  simp

theorem leftMergeOn_mem_of_no_match {L R : DataFrame} {k : String} {J : DataFrame}
    (hJ : leftMergeOn L R k = .ok J) {l : Row} (hl : l ∈ L.rows)
    (hnm : ∀ m ∈ R.rows, ¬ (getCell m k = getCell l k)) :
    renameRow (sufX (collideOn L R k)) l ++
      nullsFor (R.cols.filter (fun c => decide (c ≠ k))) (sufY (collideOn L R k)) ∈ J.rows := by
  obtain ⟨-, -, -, hrows⟩ := leftMergeOn_ok_inv hJ
  rw [hrows]
  refine List.mem_flatMap.mpr ⟨l, hl, ?_⟩
  dsimp only
  rw [matchRows_eq_nil hnm]
  simp

theorem setColumn_id_of_mem {df : DataFrame} {c : String} (h : c ∈ df.cols) :
    setColumn df c toDatetimeCell = df := by
  rw [setColumn, if_pos h]
  have : ∀ r : Row, (r.map (fun p => if p.1 = c then (p.1, toDatetimeCell p.2) else p)) = r := by
    intro r
    have hall : ∀ p ∈ r, (if p.1 = c then (p.1, toDatetimeCell p.2) else p) = p := by
      intro p hp
      by_cases hc : p.1 = c
      · rw [if_pos hc, toDatetimeCell]
      · rw [if_neg hc]
    rw [List.map_congr_left hall]
    simp
  rw [List.map_congr_left (fun r _ => this r)]
  simp

theorem canonical_merge_chain (ts : TableSet)
    (hdc : ts.downloads.cols = dlCols) (hsc : ts.signups.cols = suCols)
    (hrc : ts.requests.cols = rqCols) (htc : ts.transactions.cols = txCols)
    (hvc : ts.reviews.cols = rvCols)
    (hda : ∀ r ∈ ts.downloads.rows, r.map Prod.fst = dlCols)
    (hsa : ∀ r ∈ ts.signups.rows, r.map Prod.fst = suCols)
    (hra : ∀ r ∈ ts.requests.rows, r.map Prod.fst = rqCols)
    (hta : ∀ r ∈ ts.transactions.rows, r.map Prod.fst = txCols)
    (hva : ∀ r ∈ ts.reviews.rows, r.map Prod.fst = rvCols) :
    ∃ f1 f2 f3 f4,
      mergeStep1 ts = .ok f1 ∧ mergeStep2 ts f1 = .ok f2 ∧
      mergeStep3 ts f2 = .ok f3 ∧ mergeStep4 ts f3 = .ok f4 ∧
      merge_all_data ts = .ok (cleanupCols f4) ∧
      f1.cols = f1colsC ∧ f2.cols = f2colsC ∧ f3.cols = f3colsC ∧ f4.cols = f4colsC ∧
      (∀ r ∈ f1.rows, r.map Prod.fst = f1colsC) ∧
      (∀ r ∈ f2.rows, r.map Prod.fst = f2colsC) ∧
      (∀ r ∈ f3.rows, r.map Prod.fst = f3colsC) ∧
      (∀ r ∈ f4.rows, r.map Prod.fst = f4colsC) := by
  obtain ⟨f1, h1⟩ : ∃ f1, mergeStep1 ts = .ok f1 := by
    rw [mergeStep1, leftMergeOn2, if_pos (by rw [hdc]; decide), if_pos (by rw [hsc]; decide)]
    exact ⟨_, rfl⟩
  have h1' : leftMergeOn2 ts.downloads ts.signups "app_download_key" "session_id" = .ok f1 := h1
  have hc1 : f1.cols = f1colsC := by
    obtain ⟨-, -, hcols, -⟩ := leftMergeOn2_ok_inv h1'
    rw [hcols]
    simp only [collide2, hdc, hsc]
    decide
  have ha1 : ∀ r ∈ f1.rows, r.map Prod.fst = f1colsC := by
    intro r hr
    rw [← hc1]
    exact leftMergeOn2_row_aligned h1'
      (fun l hl => by rw [hdc]; exact hda l hl)
      (fun m hm => by rw [hsc]; exact hsa m hm) r hr
  obtain ⟨f2, h2⟩ : ∃ f2, mergeStep2 ts f1 = .ok f2 := by
    rw [mergeStep2, leftMergeOn, if_pos (by rw [hc1]; decide), if_pos (by rw [hrc]; decide)]
    exact ⟨_, rfl⟩
  have h2' : leftMergeOn f1 ts.requests "user_id" = .ok f2 := h2
  have hc2 : f2.cols = f2colsC := by
    obtain ⟨-, -, hcols, -⟩ := leftMergeOn_ok_inv h2'
    rw [hcols]
    simp only [collideOn, hc1, hrc]
    decide
  have ha2 : ∀ r ∈ f2.rows, r.map Prod.fst = f2colsC := by
    intro r hr
    rw [← hc2]
    exact leftMergeOn_row_aligned h2'
      (fun l hl => by rw [hc1]; exact ha1 l hl)
      (fun m hm => by rw [hrc]; exact hra m hm) r hr
  obtain ⟨f3, h3⟩ : ∃ f3, mergeStep3 ts f2 = .ok f3 := by
    rw [mergeStep3, leftMergeOn, if_pos (by rw [hc2]; decide), if_pos (by rw [htc]; decide)]
    exact ⟨_, rfl⟩
  have h3' : leftMergeOn f2 ts.transactions "ride_id" = .ok f3 := h3
  have hc3 : f3.cols = f3colsC := by
    obtain ⟨-, -, hcols, -⟩ := leftMergeOn_ok_inv h3'
    rw [hcols]
    simp only [collideOn, hc2, htc]
    decide
  have ha3 : ∀ r ∈ f3.rows, r.map Prod.fst = f3colsC := by
    intro r hr
    rw [← hc3]
    exact leftMergeOn_row_aligned h3'
      (fun l hl => by rw [hc2]; exact ha2 l hl)
      (fun m hm => by rw [htc]; exact hta m hm) r hr
  obtain ⟨f4, h4⟩ : ∃ f4, mergeStep4 ts f3 = .ok f4 := by
    rw [mergeStep4, leftMergeOn, if_pos (by rw [hc3]; decide), if_pos (by rw [hvc]; decide)]
    exact ⟨_, rfl⟩
  have h4' : leftMergeOn f3 ts.reviews "ride_id" = .ok f4 := h4
  have hc4 : f4.cols = f4colsC := by
    obtain ⟨-, -, hcols, -⟩ := leftMergeOn_ok_inv h4'
    rw [hcols]
    simp only [collideOn, hc3, hvc]
    decide
  have ha4 : ∀ r ∈ f4.rows, r.map Prod.fst = f4colsC := by
    intro r hr
    rw [← hc4]
    exact leftMergeOn_row_aligned h4'
      (fun l hl => by rw [hc3]; exact ha3 l hl)
      (fun m hm => by rw [hvc]; exact hva m hm) r hr
  refine ⟨f1, f2, f3, f4, h1, h2, h3, h4, ?_, hc1, hc2, hc3, hc4, ha1, ha2, ha3, ha4⟩
  rw [merge_all_data, h1]
  show (mergeStep2 ts f1).bind _ = _
  rw [h2]
  show (mergeStep3 ts f2).bind _ = _
  rw [h3]
  show (mergeStep4 ts f3).bind _ = _
  rw [h4]
  rfl

theorem exists_append_of_renamed {d : Row} (rest : Row) {cols : List String}
    {σ : String → String} (hd : d.map Prod.fst = cols) (hσ : ∀ c ∈ cols, σ c = c) :
    ∃ t, renameRow σ (d ++ rest) = d ++ t :=
  ⟨renameRow σ rest, by rw [renameRow_append, renameRow_eq_self hd hσ]⟩

/-- C3: under the canonical schema, the merge succeeds, every left join
never decreases the row count, the FunnelTable is at least as long as the
Download relation, every download row survives as a prefix of some
FunnelTable row, and a download that matches nothing down the chain
yields exactly its null-filled row. -/
theorem merge_left_joins_monotone_and_complete (ts : TableSet)
    (hdc : ts.downloads.cols = dlCols) (hsc : ts.signups.cols = suCols)
    (hrc : ts.requests.cols = rqCols) (htc : ts.transactions.cols = txCols)
    (hvc : ts.reviews.cols = rvCols)
    (hda : ∀ r ∈ ts.downloads.rows, r.map Prod.fst = dlCols)
    (hsa : ∀ r ∈ ts.signups.rows, r.map Prod.fst = suCols)
    (hra : ∀ r ∈ ts.requests.rows, r.map Prod.fst = rqCols)
    (hta : ∀ r ∈ ts.transactions.rows, r.map Prod.fst = txCols)
    (hva : ∀ r ∈ ts.reviews.rows, r.map Prod.fst = rvCols) :
    ∃ f1 f2 f3 f4,
      mergeStep1 ts = .ok f1 ∧ mergeStep2 ts f1 = .ok f2 ∧
      mergeStep3 ts f2 = .ok f3 ∧ mergeStep4 ts f3 = .ok f4 ∧
      merge_all_data ts = .ok (cleanupCols f4) ∧
      ts.downloads.rows.length ≤ f1.rows.length ∧
      f1.rows.length ≤ f2.rows.length ∧
      f2.rows.length ≤ f3.rows.length ∧
      f3.rows.length ≤ f4.rows.length ∧
      ts.downloads.rows.length ≤ (cleanupCols f4).rows.length ∧
      (∀ d ∈ ts.downloads.rows, ∃ t, d ++ t ∈ (cleanupCols f4).rows) ∧
      (∀ d ∈ ts.downloads.rows,
        (∀ s ∈ ts.signups.rows, ¬ (getCell s "session_id" = getCell d "app_download_key")) →
        (∀ q ∈ ts.requests.rows, ¬ (getCell q "user_id" = none)) →
        (∀ tx ∈ ts.transactions.rows, ¬ (getCell tx "ride_id" = none)) →
        (∀ v ∈ ts.reviews.rows, ¬ (getCell v "ride_id" = none)) →
        d ++ nullTailC3 ∈ (cleanupCols f4).rows) := by
  obtain ⟨f1, f2, f3, f4, h1, h2, h3, h4, hm, hc1, hc2, hc3, hc4, ha1, ha2, ha3, ha4⟩ :=
    canonical_merge_chain ts hdc hsc hrc htc hvc hda hsa hra hta hva
  have h1' : leftMergeOn2 ts.downloads ts.signups "app_download_key" "session_id" = .ok f1 := h1
  have h2' : leftMergeOn f1 ts.requests "user_id" = .ok f2 := h2
  have h3' : leftMergeOn f2 ts.transactions "ride_id" = .ok f3 := h3
  have h4' : leftMergeOn f3 ts.reviews "ride_id" = .ok f4 := h4
  have hS1 : collide2 ts.downloads ts.signups = [] := by
    simp only [collide2, hdc, hsc]
    decide
  have hS2 : collideOn f1 ts.requests "user_id" = [] := by
    simp only [collideOn, hc1, hrc]
    decide
  have hS3 : collideOn f2 ts.transactions "ride_id" = [] := by
    simp only [collideOn, hc2, htc]
    decide
  have hS4 : collideOn f3 ts.reviews "ride_id" = ["user_id", "driver_id"] := by
    simp only [collideOn, hc3, hvc]
    decide
  have hlen4 : (cleanupCols f4).rows.length = f4.rows.length := by
    rw [cleanupCols]
    exact List.length_map _ _
  refine ⟨f1, f2, f3, f4, h1, h2, h3, h4, hm,
    length_le_leftMergeOn2 h1', length_le_leftMergeOn h2',
    length_le_leftMergeOn h3', length_le_leftMergeOn h4', ?_, ?_, ?_⟩
  · rw [hlen4]
    calc ts.downloads.rows.length ≤ f1.rows.length := length_le_leftMergeOn2 h1'
      _ ≤ f2.rows.length := length_le_leftMergeOn h2'
      _ ≤ f3.rows.length := length_le_leftMergeOn h3'
      _ ≤ f4.rows.length := length_le_leftMergeOn h4'
  · intro d hd
    have hdd := hda d hd
    obtain ⟨t1, m1⟩ := leftMergeOn2_exists_prefix h1' hd
    rw [hS1, renameRow_eq_self hdd (by decide)] at m1
    obtain ⟨t2, m2⟩ := leftMergeOn_exists_prefix h2' m1
    rw [hS2, renameRow_eq_self (ha1 _ m1) (by decide)] at m2
    obtain ⟨t3, m3⟩ := leftMergeOn_exists_prefix h3' m2
    rw [hS3, renameRow_eq_self (ha2 _ m2) (by decide)] at m3
    obtain ⟨t4, m4⟩ := leftMergeOn_exists_prefix h4' m3
    rw [hS4] at m4
    rw [List.append_assoc, List.append_assoc] at m4
    obtain ⟨T4, hT4⟩ := exists_append_of_renamed (t1 ++ (t2 ++ t3)) hdd
      (by decide : ∀ c ∈ dlCols, sufX ["user_id", "driver_id"] c = c)
    rw [hT4, List.append_assoc] at m4
    have mfin := List.mem_map_of_mem (renameRow renameFix) m4
    obtain ⟨T5, hT5⟩ := exists_append_of_renamed (T4 ++ t4) hdd
      (by decide : ∀ c ∈ dlCols, renameFix c = c)
    rw [hT5] at mfin
    exact ⟨T5, mfin⟩
  · intro d hd hnm1 hnm2 hnm3 hnm4
    have hdd := hda d hd
    have m1 := leftMergeOn2_mem_of_no_match h1' hd hnm1
    rw [hS1, renameRow_eq_self hdd (by decide), hsc] at m1
    rw [show nullsFor suCols (sufY []) =
      [("session_id", (none : Option Val)), ("user_id", none), ("age_range", none)] by decide] at m1
    have g1 : getCell (d ++ [("session_id", (none : Option Val)), ("user_id", none),
        ("age_range", none)]) "user_id" = none := by
      rw [getCell_append_right _ (by rw [hdd]; decide)]
      decide
    have m2 := leftMergeOn_mem_of_no_match h2' m1 (by
      intro q hq
      rw [g1]
      exact hnm2 q hq)
    rw [hS2, renameRow_eq_self (ha1 _ m1) (by decide), hrc] at m2
    rw [show nullsFor (rqCols.filter (fun c => decide (c ≠ "user_id"))) (sufY []) =
      [("ride_id", (none : Option Val)), ("driver_id", none), ("request_ts", none),
       ("accept_ts", none), ("pickup_ts", none), ("dropoff_ts", none),
       ("cancel_ts", none)] by decide] at m2
    rw [List.append_assoc] at m2
    rw [show [("session_id", (none : Option Val)), ("user_id", none), ("age_range", none)] ++
      [("ride_id", (none : Option Val)), ("driver_id", none), ("request_ts", none),
       ("accept_ts", none), ("pickup_ts", none), ("dropoff_ts", none), ("cancel_ts", none)] =
      [("session_id", (none : Option Val)), ("user_id", none), ("age_range", none),
       ("ride_id", none), ("driver_id", none), ("request_ts", none), ("accept_ts", none),
       ("pickup_ts", none), ("dropoff_ts", none), ("cancel_ts", none)] from rfl] at m2
    have g2 : getCell (d ++ [("session_id", (none : Option Val)), ("user_id", none),
        ("age_range", none), ("ride_id", none), ("driver_id", none), ("request_ts", none),
        ("accept_ts", none), ("pickup_ts", none), ("dropoff_ts", none),
        ("cancel_ts", none)]) "ride_id" = none := by
      rw [getCell_append_right _ (by rw [hdd]; decide)]
      decide
    have m3 := leftMergeOn_mem_of_no_match h3' m2 (by
      intro q hq
      rw [g2]
      exact hnm3 q hq)
    rw [hS3, renameRow_eq_self (ha2 _ m2) (by decide), htc] at m3
    rw [show nullsFor (txCols.filter (fun c => decide (c ≠ "ride_id"))) (sufY []) =
      [("purchase_amount_usd", (none : Option Val)), ("charge_status", none)] by decide] at m3
    rw [List.append_assoc] at m3
    rw [show [("session_id", (none : Option Val)), ("user_id", none), ("age_range", none),
      ("ride_id", none), ("driver_id", none), ("request_ts", none), ("accept_ts", none),
      ("pickup_ts", none), ("dropoff_ts", none), ("cancel_ts", none)] ++
      [("purchase_amount_usd", (none : Option Val)), ("charge_status", none)] =
      [("session_id", (none : Option Val)), ("user_id", none), ("age_range", none),
       ("ride_id", none), ("driver_id", none), ("request_ts", none), ("accept_ts", none),
       ("pickup_ts", none), ("dropoff_ts", none), ("cancel_ts", none),
       ("purchase_amount_usd", none), ("charge_status", none)] from rfl] at m3
    have g3 : getCell (d ++ [("session_id", (none : Option Val)), ("user_id", none),
        ("age_range", none), ("ride_id", none), ("driver_id", none), ("request_ts", none),
        ("accept_ts", none), ("pickup_ts", none), ("dropoff_ts", none), ("cancel_ts", none),
        ("purchase_amount_usd", none), ("charge_status", none)]) "ride_id" = none := by
      rw [getCell_append_right _ (by rw [hdd]; decide)]
      decide
    have m4 := leftMergeOn_mem_of_no_match h4' m3 (by
      intro q hq
      rw [g3]
      exact hnm4 q hq)
    rw [hS4, hvc] at m4
    rw [renameRow_append, renameRow_eq_self hdd (by decide)] at m4
    rw [show renameRow (sufX ["user_id", "driver_id"])
      [("session_id", (none : Option Val)), ("user_id", none), ("age_range", none),
       ("ride_id", none), ("driver_id", none), ("request_ts", none), ("accept_ts", none),
       ("pickup_ts", none), ("dropoff_ts", none), ("cancel_ts", none),
       ("purchase_amount_usd", none), ("charge_status", none)] =
      [("session_id", (none : Option Val)), ("user_id_x", none), ("age_range", none),
       ("ride_id", none), ("driver_id_x", none), ("request_ts", none), ("accept_ts", none),
       ("pickup_ts", none), ("dropoff_ts", none), ("cancel_ts", none),
       ("purchase_amount_usd", none), ("charge_status", none)] by decide] at m4
    rw [show nullsFor (rvCols.filter (fun c => decide (c ≠ "ride_id")))
        (sufY ["user_id", "driver_id"]) =
      [("user_id_y", (none : Option Val)), ("driver_id_y", none), ("review_id", none)]
      by decide] at m4
    rw [List.append_assoc] at m4
    have mfin := List.mem_map_of_mem (renameRow renameFix) m4
    rw [renameRow_append, renameRow_eq_self hdd (by decide)] at mfin
    rw [show renameRow renameFix
      ([("session_id", (none : Option Val)), ("user_id_x", none), ("age_range", none),
        ("ride_id", none), ("driver_id_x", none), ("request_ts", none), ("accept_ts", none),
        ("pickup_ts", none), ("dropoff_ts", none), ("cancel_ts", none),
        ("purchase_amount_usd", none), ("charge_status", none)] ++
       [("user_id_y", (none : Option Val)), ("driver_id_y", none), ("review_id", none)]) =
      nullTailC3 by decide] at mfin
    exact mfin

/-- C1 (amended): the four left joins run in fixed order; the single
rename pass after the last join renames the `_x` survivors back to
`user_id` / `driver_id` and keeps every other column — in particular the
`_y` duplicates `user_id_y` and `driver_id_y` are retained, not dropped —
and the canonical `user_id` / `driver_id` of every FunnelTable row are the
left-hand (pre-review-join) values. -/
theorem merge_rename_keeps_duplicates_left_precedence (ts : TableSet)
    (hdc : ts.downloads.cols = dlCols) (hsc : ts.signups.cols = suCols)
    (hrc : ts.requests.cols = rqCols) (htc : ts.transactions.cols = txCols)
    (hvc : ts.reviews.cols = rvCols)
    (hda : ∀ r ∈ ts.downloads.rows, r.map Prod.fst = dlCols)
    (hsa : ∀ r ∈ ts.signups.rows, r.map Prod.fst = suCols)
    (hra : ∀ r ∈ ts.requests.rows, r.map Prod.fst = rqCols)
    (hta : ∀ r ∈ ts.transactions.rows, r.map Prod.fst = txCols)
    (hva : ∀ r ∈ ts.reviews.rows, r.map Prod.fst = rvCols) :
    ∃ f1 f2 f3 f4,
      mergeStep1 ts = .ok f1 ∧ mergeStep2 ts f1 = .ok f2 ∧
      mergeStep3 ts f2 = .ok f3 ∧ mergeStep4 ts f3 = .ok f4 ∧
      merge_all_data ts = .ok (cleanupCols f4) ∧
      f4.cols = f4colsC ∧
      (cleanupCols f4).cols = funnelColsC ∧
      (∀ r ∈ (cleanupCols f4).rows, ∃ l ∈ f3.rows,
        getCell r "user_id" = getCell l "user_id" ∧
        getCell r "driver_id" = getCell l "driver_id") := by
  obtain ⟨f1, f2, f3, f4, h1, h2, h3, h4, hm, hc1, hc2, hc3, hc4, ha1, ha2, ha3, ha4⟩ :=
    canonical_merge_chain ts hdc hsc hrc htc hvc hda hsa hra hta hva
  have h4' : leftMergeOn f3 ts.reviews "ride_id" = .ok f4 := h4
  have hS4 : collideOn f3 ts.reviews "ride_id" = ["user_id", "driver_id"] := by
    simp only [collideOn, hc3, hvc]
    decide
  have hfc : (cleanupCols f4).cols = funnelColsC := by
    show f4.cols.map renameFix = funnelColsC
    rw [hc4]
    decide
  refine ⟨f1, f2, f3, f4, h1, h2, h3, h4, hm, hc4, hfc, ?_⟩
  intro r hr
  have hr' : r ∈ f4.rows.map (renameRow renameFix) := hr
  obtain ⟨r4, hr4, rfl⟩ := List.mem_map.mp hr'
  obtain ⟨l, hl, t, rfl⟩ := leftMergeOn_rows_cases h4' hr4
  rw [hS4]
  rw [renameRow_append, renameRow_renameRow]
  refine ⟨l, hl, ?_, ?_⟩
  · exact getCell_renamed_prefix _ (ha3 l hl) (by decide) (by decide) (by decide)
  · exact getCell_renamed_prefix _ (ha3 l hl) (by decide) (by decide) (by decide)

/-- C1 (counterexample): on the example TableSet the merged FunnelTable
still contains the `user_id_y` and `driver_id_y` columns — the rename pass
drops nothing, refuting the claim that the `_y` duplicates are dropped and
absent from the result. -/
theorem merged_table_retains_y_duplicates :
    "user_id_y" ∈ okCols (merge_all_data tsC6) ∧
    "driver_id_y" ∈ okCols (merge_all_data tsC6) := by
  constructor
  · decide
  · decide

/-- C1 (witness): the amended theorem applied to the example TableSet. -/
theorem merge_rename_keeps_duplicates_left_precedence_witness :
    ∃ f, merge_all_data tsC6 = .ok f ∧ f.cols = funnelColsC := by
  obtain ⟨f1, f2, f3, f4, -, -, -, -, hm, -, hfc, -⟩ :=
    merge_rename_keeps_duplicates_left_precedence tsC6 rfl rfl rfl rfl rfl
      (by decide) (by decide) (by decide) (by decide) (by decide)
  exact ⟨cleanupCols f4, hm, hfc⟩

theorem except_bind_ok {γ α β : Type} (a : α) (f : α → Except γ β) :
    ((Except.ok a : Except γ α) >>= f) = f a := rfl

theorem merge_all_data_state_fst (st : HandlerState) :
    (merge_all_data_state st).1 = merge_all_data (tablesOf st) := by
  rw [merge_all_data_state, merge_all_data]
  cases h1 : mergeStep1 (tablesOf st) with
  | error e => rfl
  | ok f1 =>
    dsimp only
    rw [except_bind_ok]
    cases h2 : mergeStep2 (tablesOf st) f1 with
    | error e => rfl
    | ok f2 =>
      dsimp only
      rw [except_bind_ok]
      cases h3 : mergeStep3 (tablesOf st) f2 with
      | error e => rfl
      | ok f3 =>
        dsimp only
        rw [except_bind_ok]
        cases h4 : mergeStep4 (tablesOf st) f3 with
        | error e => rfl
        | ok f4 => rfl

theorem merge_all_data_state_frame (st : HandlerState) :
    preservesInputs st (merge_all_data_state st).2 := by
  rw [merge_all_data_state]
  rcases mergeStep1 (tablesOf st) with e | f1
  · exact ⟨rfl, rfl, rfl, rfl, rfl⟩
  · dsimp only
    rcases mergeStep2 (tablesOf st) f1 with e | f2
    · exact ⟨rfl, rfl, rfl, rfl, rfl⟩
    · dsimp only
      rcases mergeStep3 (tablesOf st) f2 with e | f3
      · exact ⟨rfl, rfl, rfl, rfl, rfl⟩
      · dsimp only
        rcases mergeStep4 (tablesOf st) f3 with e | f4
        · exact ⟨rfl, rfl, rfl, rfl, rfl⟩
        · exact ⟨rfl, rfl, rfl, rfl, rfl⟩

theorem ensure_funnel_frame (st : HandlerState) :
    preservesInputs st (ensure_funnel st).2 := by
  rw [ensure_funnel]
  cases h : st.df_funnel with
  | some f => exact ⟨rfl, rfl, rfl, rfl, rfl⟩
  | none => exact merge_all_data_state_frame st

theorem calculate_funnel_steps_state_frame (st : HandlerState) :
    preservesInputs st (calculate_funnel_steps_state st).2 := by
  have hf := ensure_funnel_frame st
  rw [calculate_funnel_steps_state]
  rcases hef : ensure_funnel st with ⟨r, stB⟩
  rw [hef] at hf
  cases r with
  | error e => exact hf
  | ok f => exact hf

theorem get_platform_metrics_state_frame (st : HandlerState) :
    preservesInputs st (get_platform_metrics_state st).2 := by
  have hf := ensure_funnel_frame st
  rw [get_platform_metrics_state]
  rcases hef : ensure_funnel st with ⟨r, stB⟩
  rw [hef] at hf
  cases r with
  | error e => exact hf
  | ok f => exact hf

theorem get_funnel_by_age_state_frame (st : HandlerState) :
    preservesInputs st (get_funnel_by_age_state st).2 := by
  have hf := ensure_funnel_frame st
  rw [get_funnel_by_age_state]
  rcases hef : ensure_funnel st with ⟨r, stB⟩
  rw [hef] at hf
  cases r with
  | error e => exact hf
  | ok f => exact hf

theorem analyze_surge_demand_state_frame (st : HandlerState) :
    preservesInputs st (analyze_surge_demand_state st).2 := by
  rw [analyze_surge_demand_state]
  by_cases h : "request_ts" ∈ st.df_requests.cols
  · rw [if_pos h]
    exact ⟨rfl, rfl, setColumn_id_of_mem h, rfl, rfl⟩
  · rw [if_neg h]
    exact ⟨rfl, rfl, rfl, rfl, rfl⟩

theorem analyze_surge_demand_state_fst_congr {s t : HandlerState}
    (h : s.df_requests = t.df_requests) :
    (analyze_surge_demand_state s).1 = (analyze_surge_demand_state t).1 := by
  rw [analyze_surge_demand_state, analyze_surge_demand_state, h]
  by_cases hc : "request_ts" ∈ t.df_requests.cols
  · rw [if_pos hc, if_pos hc]
  · rw [if_neg hc, if_neg hc]

/-- C4: a join key absent from the relevant side of any of the four joins
makes the merge fail with a SchemaError naming that column; the error is
returned to the caller of the funnel-dependent operation, while analyses
of other relations are untouched by the failed merge. -/
theorem merge_missing_key_schema_error (ts : TableSet) :
    ("app_download_key" ∉ ts.downloads.cols →
      merge_all_data ts = .error ⟨"app_download_key"⟩) ∧
    ("app_download_key" ∈ ts.downloads.cols → "session_id" ∉ ts.signups.cols →
      merge_all_data ts = .error ⟨"session_id"⟩) ∧
    (∀ f1, mergeStep1 ts = .ok f1 → "user_id" ∈ f1.cols → "user_id" ∉ ts.requests.cols →
      merge_all_data ts = .error ⟨"user_id"⟩) ∧
    (∀ f1 f2, mergeStep1 ts = .ok f1 → mergeStep2 ts f1 = .ok f2 →
      "ride_id" ∈ f2.cols → "ride_id" ∉ ts.transactions.cols →
      merge_all_data ts = .error ⟨"ride_id"⟩) ∧
    (∀ f1 f2 f3, mergeStep1 ts = .ok f1 → mergeStep2 ts f1 = .ok f2 →
      mergeStep3 ts f2 = .ok f3 → "ride_id" ∈ f3.cols → "ride_id" ∉ ts.reviews.cols →
      merge_all_data ts = .error ⟨"ride_id"⟩) ∧
    (∀ (st : HandlerState) (e : SchemaError), tablesOf st = ts → st.df_funnel = none →
      merge_all_data ts = .error e →
      (calculate_funnel_steps_state st).1 = .error e ∧
      (analyze_dropoff_gap_state (merge_all_data_state st).2).1 =
        (analyze_dropoff_gap_state st).1 ∧
      (analyze_surge_demand_state (merge_all_data_state st).2).1 =
        (analyze_surge_demand_state st).1) := by
  refine ⟨?_, ?_, ?_, ?_, ?_, ?_⟩
  · intro h
    have h1 : mergeStep1 ts = .error ⟨"app_download_key"⟩ := by
      rw [mergeStep1, leftMergeOn2, if_neg h]
    rw [merge_all_data, h1]
    rfl
  · intro ha h
    have h1 : mergeStep1 ts = .error ⟨"session_id"⟩ := by
      rw [mergeStep1, leftMergeOn2, if_pos ha, if_neg h]
    rw [merge_all_data, h1]
    rfl
  · intro f1 h1 hin h
    have h2 : mergeStep2 ts f1 = .error ⟨"user_id"⟩ := by
      rw [mergeStep2, leftMergeOn, if_pos hin, if_neg h]
    rw [merge_all_data, h1]
    show (mergeStep2 ts f1).bind _ = _
    rw [h2]
    rfl
  · intro f1 f2 h1 h2 hin h
    have h3 : mergeStep3 ts f2 = .error ⟨"ride_id"⟩ := by
      rw [mergeStep3, leftMergeOn, if_pos hin, if_neg h]
    rw [merge_all_data, h1]
    show (mergeStep2 ts f1).bind _ = _
    rw [h2]
    show (mergeStep3 ts f2).bind _ = _
    rw [h3]
    rfl
  · intro f1 f2 f3 h1 h2 h3 hin h
    have h4 : mergeStep4 ts f3 = .error ⟨"ride_id"⟩ := by
      rw [mergeStep4, leftMergeOn, if_pos hin, if_neg h]
    rw [merge_all_data, h1]
    show (mergeStep2 ts f1).bind _ = _
    rw [h2]
    show (mergeStep3 ts f2).bind _ = _
    rw [h3]
    show (mergeStep4 ts f3).bind _ = _
    rw [h4]
    rfl
  · intro st e hts hfn hmerr
    have hreq : (merge_all_data_state st).2.df_requests = st.df_requests :=
      (merge_all_data_state_frame st).2.2.1
    have hms : (merge_all_data_state st).1 = .error e := by
      rw [merge_all_data_state_fst, hts]
      exact hmerr
    refine ⟨?_, ?_, analyze_surge_demand_state_fst_congr hreq⟩
    · have h1 : ensure_funnel st = merge_all_data_state st := by
        rw [ensure_funnel, hfn]
      rw [calculate_funnel_steps_state, h1]
      rcases hp : merge_all_data_state st with ⟨r, stB⟩
      rw [hp] at hms
      simp only at hms
      subst hms
      rfl
    · show analyze_dropoff_gap (merge_all_data_state st).2.df_requests =
        analyze_dropoff_gap st.df_requests
      rw [hreq]

/-- C4 (witness): a TableSet whose requests relation lacks `user_id`
makes the merge fail with a SchemaError naming `user_id`. -/
theorem merge_missing_key_schema_error_witness :
    merge_all_data tsC4 = .error ⟨"user_id"⟩ :=
  (merge_missing_key_schema_error tsC4).2.2.1 ⟨f1colsC, []⟩ rfl (by decide) (by decide)

/-- C3 (witness): the monotonicity-and-completeness theorem applied to the
example TableSet. -/
theorem merge_left_joins_monotone_and_complete_witness :
    ∃ f, merge_all_data tsC6 = .ok f ∧ tsC6.downloads.rows.length ≤ f.rows.length := by
  obtain ⟨f1, f2, f3, f4, -, -, -, -, hm, -, -, -, -, hlen, -, -⟩ :=
    merge_left_joins_monotone_and_complete tsC6 rfl rfl rfl rfl rfl
      (by decide) (by decide) (by decide) (by decide) (by decide)
  exact ⟨cleanupCols f4, hm, hlen⟩

theorem filterMap_filter_fuse {α β : Type} (p : α → Bool) (g : α → Option β) (l : List α) :
    (l.filter p).filterMap g = l.filterMap (fun a => if p a then g a else none) := by
  induction l with
  | nil => rfl
  | cons a tl ih =>
    by_cases h : p a = true
    · simp [List.filter_cons, List.filterMap_cons, h, ih]
    · simp [List.filter_cons, List.filterMap_cons, h, ih]

/-- C2: `calculate_funnel_steps` returns exactly the seven stage pairs, in
order, where each count is the distinct-count the specification describes:
distinct `app_download_key` for Downloads, distinct non-null `user_id` for
Signups, and distinct `user_id` over the rows passing each stage predicate
for the rest — with Paid requiring `charge_status` to equal the exact
string Approved (so any other status, null included, is excluded).  The
source labels the Paid and Reviewed stages `Payment` and `Reviews`. -/
theorem calculate_funnel_steps_spec (f : DataFrame) :
    calculate_funnel_steps f =
      [("Downloads", distinctKeys f "app_download_key"),
       ("Signups", distinctKeys f "user_id"),
       ("Requests", distinctUsersWhere f (fun r => (getCell r "request_ts").isSome)),
       ("Accepted", distinctUsersWhere f (fun r => (getCell r "accept_ts").isSome)),
       ("Completed", distinctUsersWhere f (fun r => (getCell r "dropoff_ts").isSome)),
       ("Payment", distinctUsersWhere f
         (fun r => decide (getCell r "charge_status" = some (Val.str "Approved")))),
       ("Reviews", distinctUsersWhere f (fun r => (getCell r "review_id").isSome))] := by
  have base : ∀ c, nunique f c = distinctKeys f c := by
    intro c
    rw [nunique, nuniqueRows, distinctKeys, List.card_toFinset, List.filterMap_map]
    rfl
  have stage : ∀ c : String, nunique (filterNotNull f c) "user_id" =
      distinctUsersWhere f (fun r => (getCell r c).isSome) := by
    intro c
    rw [nunique, nuniqueRows, distinctUsersWhere, List.card_toFinset, List.filterMap_map]
    rw [show (filterNotNull f c).rows = f.rows.filter (fun r => (getCell r c).isSome) from rfl]
    rw [filterMap_filter_fuse]
    rfl
  have stageEq : nunique (filterEq f "charge_status" (Val.str "Approved")) "user_id" =
      distinctUsersWhere f
        (fun r => decide (getCell r "charge_status" = some (Val.str "Approved"))) := by
    rw [nunique, nuniqueRows, distinctUsersWhere, List.card_toFinset, List.filterMap_map]
    rw [show (filterEq f "charge_status" (Val.str "Approved")).rows =
      f.rows.filter (fun r => decide (getCell r "charge_status" = some (Val.str "Approved")))
      from rfl]
    rw [filterMap_filter_fuse]
    rfl
  rw [calculate_funnel_steps]
  simp only [base, stage, stageEq]

/-- C6: on the example scenario (three downloads, one signup, one
accepted-then-cancelled ride, no transactions or reviews) the funnel
steps are Downloads 3, Signups 1, Requests 1, Accepted 1, Completed 0,
Paid 0, Reviewed 0, and the drop-off analysis finds one problem ride, one
of which was cancelled, a rate of 100 percent. -/
theorem example_scenario_funnel_and_dropoff :
    (merge_all_data tsC6).map calculate_funnel_steps =
      .ok [("Downloads", 3), ("Signups", 1), ("Requests", 1), ("Accepted", 1),
           ("Completed", 0), ("Payment", 0), ("Reviews", 0)] ∧
    (analyze_dropoff_gap tsC6.requests).1 = 1 ∧
    (analyze_dropoff_gap tsC6.requests).2.1 = 1 ∧
    (analyze_dropoff_gap tsC6.requests).2.2 = some 100 := by
  refine ⟨rfl, rfl, rfl, ?_⟩
  rw [show (analyze_dropoff_gap tsC6.requests).2.2 =
    some (((1 : Nat) : ℚ) / ((1 : Nat) : ℚ) * 100) from rfl]
  norm_num

/-- C5 (code bug): on a requests relation with no cancelled-after-accept
ride at all (here: one completed ride), `analyze_cancellation_reasons`
divides the long-waiter count by the number of cancelled rides without a
guard and aborts with a ZeroDivisionError instead of reporting a defined
value. -/
theorem cancellation_long_waiter_share_division_by_zero :
    analyze_cancellation_reasons rqC5 = .error ⟨⟩ ∧
    (rqC5.rows.filter (fun r => (getCell r "accept_ts").isSome &&
      (getCell r "dropoff_ts").isNone && (getCell r "cancel_ts").isSome)).length = 0 :=
  ⟨rfl, rfl⟩

/-- C7 (counterexample): one ride with `dropoff_ts` set but `pickup_ts`
missing has a NaN duration, so the statistics cover zero rides even though
one ride has a non-null `dropoff_ts` — refuting the claim that the
duration is computed exactly for the rides where `dropoff_ts` is
non-null. -/
theorem duration_stats_skip_missing_pickup :
    (analyze_ride_duration_quality rqC7).1.count = 0 ∧
    (filterNotNull rqC7 "dropoff_ts").rows.length = 1 := by
  constructor
  · rfl
  · rfl

/-- C7 (amended): `analyze_ride_duration_quality` describes exactly the
durations `(dropoff_ts - pickup_ts)/60` of the rides where both
`pickup_ts` and `dropoff_ts` are non-null, and counts, without discarding
or raising, those with duration above 300 minutes and those with negative
duration. -/
theorem ride_duration_quality_spec (req : DataFrame) :
    analyze_ride_duration_quality req =
      (describe (completedDurations req),
       ((completedDurations req).filter (fun d => decide (300 < d))).length,
       ((completedDurations req).filter (fun d => decide (d < 0))).length) := by
  have key : (durationsOf req).filterMap id = completedDurations req := by
    rw [durationsOf, completedDurations]
    induction req.rows with
    | nil => rfl
    | cons r tl ih =>
      cases h1 : tsVal (getCell r "pickup_ts") with
      | none => simpa [List.filterMap_cons, List.filter_cons, rowMinutes, h1] using ih
      | some a =>
        cases h2 : tsVal (getCell r "dropoff_ts") with
        | none => simpa [List.filterMap_cons, List.filter_cons, rowMinutes, h1, h2] using ih
        | some b => simpa [List.filterMap_cons, List.filter_cons, rowMinutes, h1, h2] using ih
  simp only [analyze_ride_duration_quality]
  rw [key]

/-- C9: none of the merge or analysis operations changes any of the five
input relations; the cached FunnelTable is the only component of the
handler state any of them writes. -/
theorem operations_preserve_input_relations (st : HandlerState) :
    preservesInputs st (merge_all_data_state st).2 ∧
    preservesInputs st (ensure_funnel st).2 ∧
    preservesInputs st (calculate_funnel_steps_state st).2 ∧
    preservesInputs st (get_platform_metrics_state st).2 ∧
    preservesInputs st (get_funnel_by_age_state st).2 ∧
    preservesInputs st (analyze_ride_duration_quality_state st).2 ∧
    preservesInputs st (analyze_dropoff_gap_state st).2 ∧
    preservesInputs st (analyze_cancellation_reasons_state st).2 ∧
    preservesInputs st (analyze_surge_demand_state st).2 :=
  ⟨merge_all_data_state_frame st, ensure_funnel_frame st,
   calculate_funnel_steps_state_frame st, get_platform_metrics_state_frame st,
   get_funnel_by_age_state_frame st, ⟨rfl, rfl, rfl, rfl, rfl⟩,
   ⟨rfl, rfl, rfl, rfl, rfl⟩, ⟨rfl, rfl, rfl, rfl, rfl⟩,
   analyze_surge_demand_state_frame st⟩

theorem count_filterMap_eq_length_filter {α β : Type} [DecidableEq β]
    (g : α → Option β) (l : List α) (b : β) :
    (l.filterMap g).count b = (l.filter (fun a => decide (g a = some b))).length := by
  induction l with
  | nil => rfl
  | cons a tl ih =>
    cases h : g a with
    | none => simp [List.filterMap_cons, List.filter_cons, h, ih]
    | some x =>
      by_cases hx : x = b
      · simp [List.filterMap_cons, List.filter_cons, List.count_cons, h, hx, ih]
      · simp [List.filterMap_cons, List.filter_cons, List.count_cons, h, hx, ih]

theorem hourOfTs_lt (t : Int) : hourOfTs t < 24 := by
  rw [hourOfTs]
  have h1 : (0 : Int) ≤ (t.ediv 3600).emod 24 := Int.emod_nonneg _ (by norm_num)
  have h2 : (t.ediv 3600).emod 24 < 24 := Int.emod_lt_of_pos _ (by norm_num)
  omega

theorem hourOf_lt_24 {v : Option Val} {h : Nat} (hv : hourOf v = some h) : h < 24 := by
  cases v with
  | none => simp [hourOf] at hv
  | some w =>
    cases w with
    | str s => simp [hourOf] at hv
    | int t =>
      simp only [hourOf, Option.some.injEq] at hv
      rw [← hv]
      exact hourOfTs_lt t

/-- C8: the hourly-demand histogram is strictly sorted by hour; every pair
maps an hour of day below 24 to the exact number of requests whose
`request_ts` falls in that hour (always positive); and every hour of day
that any request falls in appears in the histogram with its count. -/
theorem surge_demand_histogram_spec (req : DataFrame) :
    List.Pairwise (fun p q : Nat × Nat => p.1 < q.1) (analyze_surge_demand req) ∧
    (∀ p ∈ analyze_surge_demand req,
      p.1 < 24 ∧ p.2 = requestsAtHour req p.1 ∧ 0 < p.2) ∧
    (∀ h : Nat, 0 < requestsAtHour req h →
      (h, requestsAtHour req h) ∈ analyze_surge_demand req) := by
  have hcount : ∀ h : Nat, (requestHours req).count h = requestsAtHour req h := by
    intro h
    rw [requestsAtHour, requestHours]
    exact count_filterMap_eq_length_filter _ _ _
  have hres : analyze_surge_demand req =
      List.insertionSort (fun p q : Nat × Nat => p.1 ≤ q.1)
        ((requestHours req).dedup.map (fun h => (h, (requestHours req).count h))) := rfl
  have hperm : List.Perm (analyze_surge_demand req)
      ((requestHours req).dedup.map (fun h => (h, (requestHours req).count h))) := by
    rw [hres]
    exact List.perm_insertionSort _ _
  have fact2 : ∀ p ∈ analyze_surge_demand req,
      p.1 < 24 ∧ p.2 = requestsAtHour req p.1 ∧ 0 < p.2 := by
    intro p hp
    have hpb := hperm.mem_iff.mp hp
    obtain ⟨h, hh, rfl⟩ := List.mem_map.mp hpb
    have hmemh : h ∈ requestHours req := List.mem_dedup.mp hh
    obtain ⟨r, -, hsome⟩ := List.mem_filterMap.mp hmemh
    refine ⟨hourOf_lt_24 hsome, hcount h, ?_⟩
    exact List.count_pos_iff.mpr hmemh
  have fact3 : ∀ h : Nat, 0 < requestsAtHour req h →
      (h, requestsAtHour req h) ∈ analyze_surge_demand req := by
    intro h hpos
    rw [← hcount h] at hpos ⊢
    refine hperm.mem_iff.mpr ?_
    have hmemh : h ∈ requestHours req := List.count_pos_iff.mp hpos
    exact List.mem_map_of_mem _ (List.mem_dedup.mpr hmemh)
  have hsorted : List.Pairwise (fun p q : Nat × Nat => p.1 ≤ q.1)
      (analyze_surge_demand req) := by
    rw [hres]
    have ht : IsTotal (Nat × Nat) (fun p q => p.1 ≤ q.1) := ⟨fun a b => Nat.le_total a.1 b.1⟩
    have htr : IsTrans (Nat × Nat) (fun p q => p.1 ≤ q.1) :=
      ⟨fun a b c hab hbc => le_trans hab hbc⟩
    exact List.sorted_insertionSort _ _
  have hmapfst : ((requestHours req).dedup.map
      (fun h => (h, (requestHours req).count h))).map Prod.fst = (requestHours req).dedup := by
    rw [List.map_map]
    have : ∀ h ∈ (requestHours req).dedup,
        (Prod.fst ∘ fun h => (h, (requestHours req).count h)) h = id h := fun h _ => rfl
    rw [List.map_congr_left this]
    simp
  have hnodupfst : ((analyze_surge_demand req).map Prod.fst).Nodup := by
    have hp2 : List.Perm ((analyze_surge_demand req).map Prod.fst)
        (((requestHours req).dedup.map (fun h => (h, (requestHours req).count h))).map Prod.fst) :=
      hperm.map _
    rw [hmapfst] at hp2
    exact hp2.nodup_iff.mpr (List.nodup_dedup _)
  have hne : List.Pairwise (fun p q : Nat × Nat => p.1 ≠ q.1) (analyze_surge_demand req) :=
    List.pairwise_map.mp hnodupfst
  exact ⟨(hsorted.and hne).imp (fun hab => lt_of_le_of_ne hab.1 hab.2), fact2, fact3⟩

theorem filterMap_filter_isSome {α β : Type} (g : α → Option β) (l : List α) :
    (l.filter (fun a => (g a).isSome)).filterMap g = l.filterMap g := by
  induction l with
  | nil => rfl
  | cons a tl ih =>
    cases h : g a with
    | none => simp [List.filter_cons, List.filterMap_cons, h, ih]
    | some b => simp [List.filter_cons, List.filterMap_cons, h, ih]

theorem nuniqueRows_le_of_sublist {l m : List Row} (h : List.Sublist l m) (c : String) :
    nuniqueRows l c ≤ nuniqueRows m c := by
  rw [nuniqueRows, nuniqueRows, ← List.card_toFinset, ← List.card_toFinset]
  apply Finset.card_le_card
  intro x hx
  rw [List.mem_toFinset] at hx
  rw [List.mem_toFinset]
  exact (((h.map _).filterMap _).subset) hx

/-- C10: the age-segment table has exactly one row per distinct non-null
`age_range` value (its label multiset is duplicate-free and covers exactly
the non-null age values of the FunnelTable), and in every row the
requests, completed and reviews distinct-user counts are bounded by the
signups count of the same group, each being taken over a row-subset of
the group. -/
theorem age_funnel_rows_and_bounds (f : DataFrame) :
    ((get_funnel_by_age f).map (fun row => row.ageGroup)).Nodup ∧
    (∀ a : Val, a ∈ (get_funnel_by_age f).map (fun row => row.ageGroup) ↔
        a ∈ f.rows.filterMap (fun r => getCell r "age_range")) ∧
    (∀ row ∈ get_funnel_by_age f,
      row.requests ≤ row.signups ∧ row.completed ≤ row.signups ∧
      row.reviews ≤ row.signups) := by
  have hperm : List.Perm (get_funnel_by_age f) ((ageGroupsOf f).map (ageRowFor f)) :=
    List.perm_insertionSort _ _
  have hmapfst : (((ageGroupsOf f).map (ageRowFor f)).map (fun row => row.ageGroup)) =
      ageGroupsOf f := by
    rw [List.map_map]
    have : ∀ g ∈ ageGroupsOf f,
        ((fun row => row.ageGroup) ∘ ageRowFor f) g = id g := fun g _ => rfl
    rw [List.map_congr_left this]
    simp
  have hpermmap : List.Perm ((get_funnel_by_age f).map (fun row => row.ageGroup))
      (ageGroupsOf f) := by
    have := hperm.map (fun row : AgeRow => row.ageGroup)
    rw [hmapfst] at this
    exact this
  refine ⟨hpermmap.nodup_iff.mpr (List.nodup_dedup _), ?_, ?_⟩
  · intro a
    rw [hpermmap.mem_iff, ageGroupsOf, List.mem_dedup, ageRowsOf, filterMap_filter_isSome]
  · intro row hrow
    obtain ⟨g, -, rfl⟩ := List.mem_map.mp (hperm.mem_iff.mp hrow)
    refine ⟨?_, ?_, ?_⟩
    · exact nuniqueRows_le_of_sublist (List.filter_sublist _) _
    · exact nuniqueRows_le_of_sublist (List.filter_sublist _) _
    · exact nuniqueRows_le_of_sublist (List.filter_sublist _) _

/-- C8 (witness): the histogram theorem applied to the example requests
relation — hour 0 holds one request. -/
theorem surge_demand_histogram_spec_witness :
    (0, 1) ∈ analyze_surge_demand rqC6 := by
  have h := (surge_demand_histogram_spec rqC6).2.2 0 (by decide)
  rw [show requestsAtHour rqC6 0 = 1 from rfl] at h
  exact h

/-- C10 (witness): the age-segment theorem applied to a concrete
FunnelTable. -/
theorem age_funnel_rows_and_bounds_witness :
    ∃ row ∈ get_funnel_by_age dfC10, row.requests ≤ row.signups := by
  have hm : ageRowFor dfC10 (Val.str "18-24") ∈ get_funnel_by_age dfC10 := by decide
  exact ⟨_, hm, ((age_funnel_rows_and_bounds dfC10).2.2 _ hm).1⟩
